import Mathlib

/-!
Shallow embedding of the declarative connector fragment:
`CursorPaginationStrategy` (from
`airbyte_cdk/sources/declarative/requesters/paginators/cursor_pagination_strategy.py`)
and the `DictState` stream-state tracker, whose implementation file is not in
the visible sources (only its unit tests are), so it is modelled from the
specification.
-/

namespace Airbyte

/-- Raw values produced by template evaluation: strings or integers, the two
value kinds the visible tests exercise. -/
inductive RawVal where
  | vstr (s : String)
  | vint (n : Int)
deriving DecidableEq, Repr

/-- A context mapping (the configuration object, a record, or a decoded
response body): an association list from string keys to raw values. -/
abbrev Ctx := List (String × RawVal)

/-- Modelled from the spec: the external template-evaluation service
(`InterpolatedString` internals are out of scope). A template is a bracketed
key path into one of the three context mappings, e.g. the test templates
`config['name']`, `last_record['updated_at']`, or a `decoded_response`
path for pagination. -/
inductive Template where
  | configKey (k : String)
  | lastRecordKey (k : String)
  | decodedResponseKey (k : String)
deriving DecidableEq, Repr

/-- The evaluation context offered to a template: configuration plus the
optional last record and decoded response (absent parts are empty). -/
structure TemplateContext where
  config : Ctx
  last_record : Ctx
  decoded_response : Ctx
deriving DecidableEq, Repr

/-- Modelled from the spec: template evaluation looks the key path up in the
named context mapping; a missing key yields an absent value. -/
def Template.eval : Template → TemplateContext → Option RawVal
  | .configKey k, c => c.config.lookup k
  | .lastRecordKey k, c => c.last_record.lookup k
  | .decodedResponseKey k, c => c.decoded_response.lookup k

/-- An HTTP response as seen by the pagination strategy: only its decoded
JSON body matters (`response.json()` in the source). -/
structure HttpResponse where
  json : Ctx
deriving DecidableEq, Repr

/-- Embedding of `CursorPaginationStrategy.__init__`: it stores the cursor
value template and the configuration. -/
structure CursorPaginationStrategy where
  cursor_value : Template
  config : Ctx
deriving DecidableEq, Repr

/-- Embedding of `CursorPaginationStrategy.next_page_token`: it evaluates the
cursor-value template against `config` and `decoded_response = response.json()`.
The `last_records` argument appears in the signature but not in the body. -/
def CursorPaginationStrategy.next_page_token (s : CursorPaginationStrategy)
    (response : HttpResponse) (last_records : List Ctx) : Option RawVal :=
  s.cursor_value.eval ⟨s.config, [], response.json⟩

/-- Modelled from the spec: errors the tracker propagates — template
evaluation failures and type-coercion failures. -/
inductive TrackerError where
  | templateEvaluationError (msg : String)
  | typeCoercionError (msg : String)
deriving DecidableEq, Repr

/-- Modelled from the spec: evaluation that raises on a missing key instead
of producing an absent value (the state tracker's use of the template
service). -/
def evalOrError (t : Template) (ctx : TemplateContext) : Except String RawVal :=
  match t.eval ctx with
  | some v => .ok v
  | none => .error "missing key in template context"

/-- Modelled from the spec: the `DictState` stream-state tracker, generic in
the comparable value type `ComparableType` (instantiated at `String` or `Int`
below, matching `str` / `int` in the tests). `field_name` is fixed at
construction; `coerce` casts a raw candidate to the value type; `value` is
the single stored cursor value, absent before any update. -/
structure DictState (α : Type) where
  field_name : String
  value_template : Template
  coerce : RawVal → Except String α
  config : Ctx
  value : Option α

/-- Modelled from the spec: the field-name template is evaluated once against
the configuration at construction time; the result is interpolated to a
string. -/
def evalFieldName (t : Template) (config : Ctx) : Except String String :=
  match t.eval ⟨config, [], []⟩ with
  | some (.vstr s) => .ok s
  | some (.vint n) => .ok (toString n)
  | none => .error "missing key in field name template"

/-- Modelled from the spec: `DictState` construction. The state starts with
the field present and its value absent. -/
def mkDictState (name : Template) (value : Template)
    (coerce : RawVal → Except String α) (config : Ctx) :
    Except String (DictState α) :=
  (evalFieldName name config).map fun fn =>
    { field_name := fn, value_template := value, coerce := coerce,
      config := config, value := none }

/-- Modelled from the spec: `get_state` returns the current mapping
`{field_name: current_value_or_none}`. -/
def DictState.get_state (st : DictState α) : List (String × Option α) :=
  [(st.field_name, st.value)]

/-- State-passing form of `get_state`, making the frame condition explicit:
the call returns the mapping and the tracker state it leaves behind. -/
def DictState.get_state_run (st : DictState α) :
    List (String × Option α) × DictState α :=
  (st.get_state, st)

/-- A sequence of `n` consecutive `get_state` calls, threading the tracker
state through each call and collecting the returned mappings. -/
def DictState.readStates (st : DictState α) : Nat → List (List (String × Option α)) × DictState α
  | 0 => ([], st)
  | n + 1 =>
    let r := st.get_state_run
    let rest := DictState.readStates r.2 n
    (r.1 :: rest.1, rest.2)

/-- Maximum of two optional values, the absent value acting as identity. -/
def maxOpt [LinearOrder α] : Option α → Option α → Option α
  | none, b => b
  | some a, none => some a
  | some a, some b => some (max a b)

/-- The field's value inside an optional prior stream state, if any. -/
def priorFieldValue (fn : String) (prior : Option (List (String × α))) : Option α :=
  prior.bind fun p => p.lookup fn

/-- Modelled from the spec: the candidate cursor value of one update — the
value template evaluated against `{config, last_record}`, then coerced to the
value type; each stage can fail with its own error. -/
def computeCandidate (t : Template) (coerce : RawVal → Except String α)
    (config : Ctx) (last_record : Ctx) : Except TrackerError α :=
  match evalOrError t ⟨config, last_record, []⟩ with
  | .error e => .error (.templateEvaluationError e)
  | .ok raw =>
    match coerce raw with
    | .error e => .error (.typeCoercionError e)
    | .ok c => .ok c

/-- Modelled from the spec: `update_state`. On success the stored value
becomes the maximum (absent as identity) of the current value, the candidate,
and the prior stream state's field value; on failure the error propagates and
the state is unchanged. `stream_slice` and `last_response` are contextual
hints not used by the comparison. The pair returned is the (exception or
unit) outcome together with the tracker state after the call. -/
def DictState.update_state [LinearOrder α] (st : DictState α)
    (stream_slice : Option Ctx) (stream_state : Option (List (String × α)))
    (last_response : Ctx) (last_record : Ctx) :
    Except TrackerError Unit × DictState α :=
  match computeCandidate st.value_template st.coerce st.config last_record with
  | .error e => (.error e, st)
  | .ok cand =>
    (.ok (), { st with
      value := maxOpt (maxOpt st.value (some cand))
        (priorFieldValue st.field_name stream_state) })

/-- Coercion to the `str` value type: strings pass through, integers print. -/
def strCoerce : RawVal → Except String String
  | .vstr s => .ok s
  | .vint n => .ok (toString n)

/-- Parses a non-empty run of decimal digits, threading the accumulator;
any non-digit character fails. -/
def parseNatDigits : List Char → Option Nat → Option Nat
  | [], acc => acc
  | c :: rest, acc =>
    if c.isDigit then
      parseNatDigits rest (some ((acc.getD 0) * 10 + (c.toNat - 48)))
    else none

/-- Parses an optionally negated decimal integer, the way Python's `int`
accepts a numeric string and rejects anything else. -/
def parseInt? (s : String) : Option Int :=
  match s.data with
  | '-' :: rest => (parseNatDigits rest none).map fun n => -(n : Int)
  | l => (parseNatDigits l none).map fun n => (n : Int)

/-- Coercion to the `int` value type: integers pass through, strings parse or
fail. -/
def intCoerce : RawVal → Except String Int
  | .vint n => .ok n
  | .vstr s =>
    match parseInt? s with
    | some n => .ok n
    | none => .error ("cannot cast to int: " ++ s)

/-- The arguments of one `update_state` call, for reasoning about sequences
of calls. -/
structure UpdateInput (α : Type) where
  stream_slice : Option Ctx
  stream_state : Option (List (String × α))
  last_response : Ctx
  last_record : Ctx

/-- Folds a list of update calls over a tracker, keeping the post-call state
each time (on error the state is the unchanged one). -/
def runUpdates [LinearOrder α] (st : DictState α) : List (UpdateInput α) → DictState α
  | [] => st
  | i :: rest =>
    runUpdates (st.update_state i.stream_slice i.stream_state i.last_response i.last_record).2 rest

/-- A run of updates whose candidate values strictly increase, each exceeding
the tracked value `cur` held before the run, with every call's prior stream
state field value dominated by that call's candidate. -/
def IncreasingRun [LinearOrder α] (t : Template) (coerce : RawVal → Except String α)
    (config : Ctx) (fn : String) : Option α → List (UpdateInput α) → Prop
  | _, [] => True
  | cur, i :: rest =>
    ∃ c, computeCandidate t coerce config i.last_record = .ok c ∧
      (∀ v, cur = some v → v < c) ∧
      (∀ p, priorFieldValue fn i.stream_state = some p → p ≤ c) ∧
      IncreasingRun t coerce config fn (some c) rest

/-- After each update of the run, `get_state` maps the field name to that
update's candidate (the latest candidate so far). -/
def EachStateIsLatest [LinearOrder α] : DictState α → List (UpdateInput α) → Prop
  | _, [] => True
  | st, i :: rest =>
    ∃ c, computeCandidate st.value_template st.coerce st.config i.last_record = .ok c ∧
      (st.update_state i.stream_slice i.stream_state i.last_response i.last_record).2.get_state
        = [(st.field_name, some c)] ∧
      EachStateIsLatest
        (st.update_state i.stream_slice i.stream_state i.last_response i.last_record).2 rest

/- Fixtures mirroring the unit-test module constants:
`name = "\x7b\x7b config['name'] \x7d\x7d"`,
`value = "\x7b\x7b last_record['updated_at'] \x7d\x7d"`,
`config = {"name": "date"}`. -/

/-- The test's field-name template, `config['name']`. -/
def nameTemplate : Template := .configKey "name"

/-- The test's value template, `last_record['updated_at']`. -/
def valueTemplate : Template := .lastRecordKey "updated_at"

/-- The test's configuration, `{"name": "date"}`. -/
def testConfig : Ctx := [("name", RawVal.vstr "date")]

/-- A freshly constructed string-typed tracker,
`DictState(name, value, str, vars, config)` of the tests. -/
def strState : DictState String :=
  { field_name := "date", value_template := valueTemplate, coerce := strCoerce,
    config := testConfig, value := none }

/-- A freshly constructed integer-typed tracker,
`DictState(name, value, int, vars, config)` of the tests. -/
def intState : DictState Int :=
  { field_name := "date", value_template := valueTemplate, coerce := intCoerce,
    config := testConfig, value := none }

/- Helper lemmas. -/

@[simp]
theorem maxOpt_none_left [LinearOrder α] (o : Option α) : maxOpt none o = o := rfl

@[simp]
theorem maxOpt_none_right [LinearOrder α] (o : Option α) : maxOpt o none = o := by
  cases o <;> rfl

@[simp]
theorem maxOpt_some_some [LinearOrder α] (a b : α) :
    maxOpt (some a) (some b) = some (max a b) := rfl

theorem update_state_ok [LinearOrder α] (st : DictState α)
    (stream_slice : Option Ctx) (stream_state : Option (List (String × α)))
    (last_response last_record : Ctx) (cand : α)
    (hc : computeCandidate st.value_template st.coerce st.config last_record = .ok cand) :
    st.update_state stream_slice stream_state last_response last_record =
      (.ok (), { st with
        value := maxOpt (maxOpt st.value (some cand))
          (priorFieldValue st.field_name stream_state) }) := by
  unfold DictState.update_state
  rw [hc]

theorem update_state_err [LinearOrder α] (st : DictState α)
    (stream_slice : Option Ctx) (stream_state : Option (List (String × α)))
    (last_response last_record : Ctx) (e : TrackerError)
    (hc : computeCandidate st.value_template st.coerce st.config last_record = .error e) :
    st.update_state stream_slice stream_state last_response last_record = (.error e, st) := by
  unfold DictState.update_state
  rw [hc]

theorem update_value_mono [LinearOrder α] (st : DictState α)
    (stream_slice : Option Ctx) (stream_state : Option (List (String × α)))
    (last_response last_record : Ctx) (cur : α) (h : st.value = some cur) :
    ∃ v, (st.update_state stream_slice stream_state last_response last_record).2.value
        = some v ∧ cur ≤ v := by
  cases hc : computeCandidate st.value_template st.coerce st.config last_record with
  | error e =>
    rw [update_state_err st _ _ _ _ _ hc]
    exact ⟨cur, h, le_refl cur⟩
  | ok c =>
    rw [update_state_ok st _ _ _ _ _ hc]
    cases hp : priorFieldValue st.field_name stream_state with
    | none =>
      refine ⟨max cur c, ?_, le_max_left _ _⟩
      simp [h, hp]
    | some p =>
      refine ⟨max (max cur c) p, ?_, le_trans (le_max_left _ _) (le_max_left _ _)⟩
      simp [h, hp]

theorem runUpdates_mono [LinearOrder α] (inputs : List (UpdateInput α)) :
    ∀ (st : DictState α) (cur : α), st.value = some cur →
      ∃ v, (runUpdates st inputs).value = some v ∧ cur ≤ v := by
  induction inputs with
  | nil => exact fun st cur h => ⟨cur, h, le_refl cur⟩
  | cons i rest ih =>
    intro st cur h
    obtain ⟨v, hv, hcv⟩ :=
      update_value_mono st i.stream_slice i.stream_state i.last_response i.last_record cur h
    obtain ⟨w, hw, hvw⟩ := ih _ v hv
    exact ⟨w, hw, le_trans hcv hvw⟩

/-- An integer tracker whose stored value 10 was reached by one update from
the fresh tracker. -/
def intState10 : DictState Int :=
  (intState.update_state none none [] [("updated_at", RawVal.vint 10)]).2

/-- A pagination strategy whose cursor-value template reads
`decoded_response['next_page']`. -/
def samplePagination : CursorPaginationStrategy :=
  { cursor_value := Template.decodedResponseKey "next_page", config := testConfig }

/-- A response whose decoded body carries a next-page token. -/
def sampleResponse : HttpResponse :=
  { json := [("next_page", RawVal.vstr "token2")] }

theorem update_state_noop [LinearOrder α] (st : DictState α)
    (stream_slice : Option Ctx) (stream_state : Option (List (String × α)))
    (last_response last_record : Ctx) (cand cur : α)
    (hc : computeCandidate st.value_template st.coerce st.config last_record = .ok cand)
    (hcur : st.value = some cur) (hle : cand ≤ cur)
    (hprior : ∀ p, priorFieldValue st.field_name stream_state = some p → p ≤ cur) :
    (st.update_state stream_slice stream_state last_response last_record).1 = .ok () ∧
    (st.update_state stream_slice stream_state last_response last_record).2.get_state
      = st.get_state := by
  rw [update_state_ok st _ _ _ _ _ hc]
  refine ⟨rfl, ?_⟩
  have hmax : max cur cand = cur := max_eq_left hle
  cases hp : priorFieldValue st.field_name stream_state with
  | none => simp [DictState.get_state, hcur, hp, hmax]
  | some p =>
    have hpc : p ≤ cur := hprior p hp
    simp [DictState.get_state, hcur, hp, hmax, max_eq_left hpc]

/-- Claim C1: on every successful update the new stored value is the maximum,
under the value type's ordering, of the current value, the candidate obtained
by evaluating the value template against the config and last record, and the
prior stream state's field value, where an absent value is the identity of the
maximum operation. -/
theorem dictState_update_stores_max [LinearOrder α] (st : DictState α)
    (stream_slice : Option Ctx) (stream_state : Option (List (String × α)))
    (last_response last_record : Ctx) (raw : RawVal) (cand : α)
    (heval : evalOrError st.value_template ⟨st.config, last_record, []⟩ = .ok raw)
    (hco : st.coerce raw = .ok cand) :
    (st.update_state stream_slice stream_state last_response last_record).1 = .ok () ∧
    (st.update_state stream_slice stream_state last_response last_record).2.value =
      maxOpt (maxOpt st.value (some cand)) (priorFieldValue st.field_name stream_state) ∧
    (∀ a b : α, maxOpt (some a) (some b) = some (max a b)) ∧
    (∀ o : Option α, maxOpt none o = o) ∧
    (∀ o : Option α, maxOpt o none = o) := by
  have hc : computeCandidate st.value_template st.coerce st.config last_record = .ok cand := by
    simp only [computeCandidate, heval, hco]
  rw [update_state_ok st _ _ _ _ _ hc]
  exact ⟨rfl, rfl, fun a b => rfl, fun o => rfl, fun o => maxOpt_none_right o⟩

/-- Witness for C1 at the integer timestamp scenario of the tests. -/
theorem dictState_update_stores_max_witness :
    (intState.update_state none (some [("date", (12345 : Int))]) []
        [("updated_at", RawVal.vint 123456)]).1 = .ok () ∧
    (intState.update_state none (some [("date", (12345 : Int))]) []
        [("updated_at", RawVal.vint 123456)]).2.value =
      maxOpt (maxOpt intState.value (some (123456 : Int)))
        (priorFieldValue intState.field_name (some [("date", (12345 : Int))])) ∧
    (∀ a b : Int, maxOpt (some a) (some b) = some (max a b)) ∧
    (∀ o : Option Int, maxOpt none o = o) ∧
    (∀ o : Option Int, maxOpt o none = o) :=
  dictState_update_stores_max intState none (some [("date", (12345 : Int))]) []
    [("updated_at", RawVal.vint 123456)] (RawVal.vint 123456) 123456 rfl rfl

/-- Claim C4: with the integer value type the comparison is numeric: the
timestamp scenario stores 123456 over a prior 12345, a candidate 10 beats a
prior 9, while the string-typed tracker on the same digits keeps "9" because
"10" is lexicographically smaller than "9". -/
theorem dictState_integer_comparison :
    (intState.update_state none (some [("date", (12345 : Int))]) []
        [("updated_at", RawVal.vint 123456)]).2.get_state
      = [("date", some (123456 : Int))] ∧
    (intState.update_state none (some [("date", (9 : Int))]) []
        [("updated_at", RawVal.vint 10)]).2.get_state
      = [("date", some (10 : Int))] ∧
    (strState.update_state none (some [("date", "9")]) []
        [("updated_at", RawVal.vstr "10")]).2.get_state
      = [("date", some "9")] ∧
    ("10" : String) < "9" := by
  have hlt : ("10" : String) < "9" := String.lt_iff_toList_lt.mpr (by decide)
  refine ⟨by decide, by decide, ?_, hlt⟩
  have hc : computeCandidate strState.value_template strState.coerce strState.config
      [("updated_at", RawVal.vstr "10")] = .ok "10" := rfl
  rw [update_state_ok strState _ _ _ _ _ hc]
  show [("date", maxOpt (maxOpt (none : Option String) (some "10")) (some "9"))]
    = [("date", some "9")]
  simp only [maxOpt_none_left, maxOpt_some_some]
  rw [max_eq_right (le_of_lt hlt)]

/-- Claim C5: a freshly constructed tracker with no prior state answers
`get_state` with the field name (evaluated from its template against the
configuration at construction) mapped to an absent value. -/
theorem dictState_initial_state (name value : Template)
    (coerce : RawVal → Except String α) (config : Ctx) (fn : String)
    (st : DictState α)
    (hfn : evalFieldName name config = .ok fn)
    (hmk : mkDictState name value coerce config = .ok st) :
    st.get_state = [(fn, none)] := by
  unfold mkDictState at hmk
  rw [hfn] at hmk
  simp only [Except.map] at hmk
  injection hmk with h
  rw [← h]
  rfl

/-- Witness for C5 at the test configuration. -/
theorem dictState_initial_state_witness :
    strState.get_state = [("date", (none : Option String))] :=
  dictState_initial_state nameTemplate valueTemplate strCoerce testConfig "date" strState
    rfl rfl

/-- Claim C8: `next_page_token` returns exactly the evaluation of the
cursor-value template against the configuration and the decoded response
body (an absent result meaning no further pages), and it is pure: equal
inputs give equal results. -/
theorem next_page_token_template_result :
    (∀ (s : CursorPaginationStrategy) (response : HttpResponse) (last_records : List Ctx),
        s.next_page_token response last_records
          = s.cursor_value.eval ⟨s.config, [], response.json⟩) ∧
    (∀ (s : CursorPaginationStrategy) (r₁ r₂ : HttpResponse) (l₁ l₂ : List Ctx),
        r₁ = r₂ → l₁ = l₂ →
        s.next_page_token r₁ l₁ = s.next_page_token r₂ l₂) := by
  constructor
  · intro s response last_records
    rfl
  · intro s r₁ r₂ l₁ l₂ hr hl
    rw [hr, hl]

/-- Witness for C8 at a concrete strategy and response. -/
theorem next_page_token_template_result_witness :
    samplePagination.next_page_token sampleResponse []
        = samplePagination.cursor_value.eval
            ⟨samplePagination.config, [], sampleResponse.json⟩ ∧
    samplePagination.next_page_token sampleResponse []
        = samplePagination.next_page_token sampleResponse [] :=
  ⟨next_page_token_template_result.1 samplePagination sampleResponse [],
   next_page_token_template_result.2 samplePagination sampleResponse sampleResponse [] []
     rfl rfl⟩

/-- Claim C9: `get_state` returns the current single-field mapping and has no
side effect: the state after the call is the state before it, and any number
of consecutive calls return equal results. -/
theorem get_state_no_side_effects (st : DictState α) (n : Nat) :
    st.get_state = [(st.field_name, st.value)] ∧
    st.get_state_run = (st.get_state, st) ∧
    (st.readStates n).1 = List.replicate n st.get_state ∧
    (st.readStates n).2 = st := by
  refine ⟨rfl, rfl, ?_, ?_⟩
  · induction n with
    | zero => rfl
    | succ k ih =>
      simp [DictState.readStates, DictState.get_state_run, ih, List.replicate_succ]
  · induction n with
    | zero => rfl
    | succ k ih => simp [DictState.readStates, DictState.get_state_run, ih]

/-- Counterexample to claim C2 as stated: from the reachable tracker holding
10, an update whose candidate 5 is less than 10 but whose prior stream state
carries 20 changes `get_state` from 10 to 20 (no error is raised). -/
theorem dictState_regression_counterexample :
    computeCandidate intState10.value_template intState10.coerce intState10.config
        [("updated_at", RawVal.vint 5)] = .ok 5 ∧
    intState10.value = some 10 ∧ (5 : Int) < 10 ∧
    (intState10.update_state none (some [("date", (20 : Int))]) []
        [("updated_at", RawVal.vint 5)]).1 = .ok () ∧
    (intState10.update_state none (some [("date", (20 : Int))]) []
        [("updated_at", RawVal.vint 5)]).2.get_state = [("date", some (20 : Int))] ∧
    intState10.get_state = [("date", some (10 : Int))] :=
  ⟨rfl, rfl, by decide, rfl, by decide, by decide⟩

/-- Claim C2 (amended): an update whose candidate is less than the stored
value, and whose prior stream state field value is absent or at most the
stored value, leaves `get_state` unchanged and raises no error; across any
sequence of updates the stored value is monotonically non-decreasing. -/
theorem dictState_regression_ignored_and_monotone [LinearOrder α] :
    (∀ (st : DictState α) (stream_slice : Option Ctx)
        (stream_state : Option (List (String × α))) (last_response last_record : Ctx)
        (cand cur : α),
        computeCandidate st.value_template st.coerce st.config last_record = .ok cand →
        st.value = some cur → cand < cur →
        (∀ p, priorFieldValue st.field_name stream_state = some p → p ≤ cur) →
        (st.update_state stream_slice stream_state last_response last_record).1 = .ok () ∧
        (st.update_state stream_slice stream_state last_response last_record).2.get_state
          = st.get_state) ∧
    (∀ (st : DictState α) (inputs : List (UpdateInput α)) (cur : α),
        st.value = some cur →
        ∃ v, (runUpdates st inputs).value = some v ∧ cur ≤ v) := by
  constructor
  · intro st stream_slice stream_state last_response last_record cand cur hc hcur hlt hp
    exact update_state_noop st stream_slice stream_state last_response last_record cand cur
      hc hcur (le_of_lt hlt) hp
  · intro st inputs cur h
    exact runUpdates_mono inputs st cur h

/-- Witness for C2 (amended): the out-of-order update of the tests leaves the
reachable tracker holding 10 unchanged, and a further update can only grow
the stored value. -/
theorem dictState_regression_ignored_and_monotone_witness :
    ((intState10.update_state none none [] [("updated_at", RawVal.vint 5)]).1 = .ok () ∧
     (intState10.update_state none none [] [("updated_at", RawVal.vint 5)]).2.get_state
       = intState10.get_state) ∧
    (∃ v, (runUpdates intState10
        [{ stream_slice := none, stream_state := none, last_response := [],
           last_record := [("updated_at", RawVal.vint 20)] }]).value = some v ∧
      (10 : Int) ≤ v) :=
  ⟨dictState_regression_ignored_and_monotone.1 intState10 none none []
      [("updated_at", RawVal.vint 5)] 5 10 rfl rfl (by decide) (fun p h => nomatch h),
   dictState_regression_ignored_and_monotone.2 intState10
      [{ stream_slice := none, stream_state := none, last_response := [],
         last_record := [("updated_at", RawVal.vint 20)] }] 10 rfl⟩

/-- Counterexample to claim C3 as stated: a one-update sequence (trivially
strictly increasing) with candidate 1 but prior stream state field 2 ends
with `get_state` at 2, not at the latest candidate 1. This is the repo's own
`test_update_state_with_old_cursor` behavior. -/
theorem dictState_latest_candidate_counterexample :
    computeCandidate intState.value_template intState.coerce intState.config
        [("updated_at", RawVal.vint 1)] = .ok 1 ∧
    (intState.update_state none (some [("date", (2 : Int))]) []
        [("updated_at", RawVal.vint 1)]).2.get_state = [("date", some (2 : Int))] ∧
    [("date", some (2 : Int))] ≠ [("date", some (1 : Int))] :=
  ⟨rfl, by decide, by decide⟩

/-- Claim C3 (amended): over a run of updates whose candidates strictly
increase, exceed any initially stored value, and dominate each call's prior
stream state field value, `get_state` after every update maps the field name
to the latest candidate so far. -/
theorem dictState_increasing_run_tracks_latest [LinearOrder α]
    (inputs : List (UpdateInput α)) :
    ∀ st : DictState α,
      IncreasingRun st.value_template st.coerce st.config st.field_name st.value inputs →
      EachStateIsLatest st inputs := by
  induction inputs with
  | nil =>
    intro st h
    trivial
  | cons i rest ih =>
    intro st h
    simp only [IncreasingRun] at h
    obtain ⟨c, hc, hlt, hp, hrest⟩ := h
    have hupd := update_state_ok st i.stream_slice i.stream_state i.last_response
      i.last_record c hc
    have hval : maxOpt (maxOpt st.value (some c))
        (priorFieldValue st.field_name i.stream_state) = some c := by
      have h1 : maxOpt st.value (some c) = some c := by
        cases hv : st.value with
        | none => rfl
        | some v => simp [max_eq_right (le_of_lt (hlt v hv))]
      rw [h1]
      cases hq : priorFieldValue st.field_name i.stream_state with
      | none => rfl
      | some p => simp [max_eq_left (hp p hq)]
    simp only [EachStateIsLatest]
    refine ⟨c, hc, ?_, ?_⟩
    · rw [hupd]
      show [(st.field_name, maxOpt (maxOpt st.value (some c))
        (priorFieldValue st.field_name i.stream_state))] = [(st.field_name, some c)]
      rw [hval]
    · rw [hupd]
      apply ih
      show IncreasingRun st.value_template st.coerce st.config st.field_name
        (maxOpt (maxOpt st.value (some c)) (priorFieldValue st.field_name i.stream_state))
        rest
      rw [hval]
      exact hrest

/-- Witness for C3 (amended): a fresh integer tracker fed candidates 1 then 2
tracks the latest candidate after each update. -/
theorem dictState_increasing_run_tracks_latest_witness :
    EachStateIsLatest intState
      [{ stream_slice := none, stream_state := none, last_response := [],
         last_record := [("updated_at", RawVal.vint 1)] },
       { stream_slice := none, stream_state := some [("date", (2 : Int))],
         last_response := [], last_record := [("updated_at", RawVal.vint 2)] }] :=
  dictState_increasing_run_tracks_latest _ intState (by
    simp only [IncreasingRun]
    refine ⟨1, rfl, ?_, ?_, 2, rfl, ?_, ?_, trivial⟩
    · intro v hv
      exact nomatch hv
    · intro p hp
      exact nomatch hp
    · intro v hv
      injection hv with h
      omega
    · intro p hp
      injection hp with h
      omega)

/-- Counterexample to claim C6 as stated: from the reachable tracker holding
10, an update whose candidate equals the stored value 10 but whose prior
stream state carries 20 moves `get_state` to 20. -/
theorem dictState_equal_update_counterexample :
    computeCandidate intState10.value_template intState10.coerce intState10.config
        [("updated_at", RawVal.vint 10)] = .ok 10 ∧
    intState10.value = some 10 ∧
    (intState10.update_state none (some [("date", (20 : Int))]) []
        [("updated_at", RawVal.vint 10)]).2.get_state = [("date", some (20 : Int))] ∧
    intState10.get_state = [("date", some (10 : Int))] :=
  ⟨rfl, rfl, by decide, by decide⟩

/-- Claim C6 (amended): an update whose candidate equals the stored value,
and whose prior stream state field value is absent or at most the stored
value, leaves `get_state` unchanged and raises no error. -/
theorem dictState_equal_update_idempotent [LinearOrder α] (st : DictState α)
    (stream_slice : Option Ctx) (stream_state : Option (List (String × α)))
    (last_response last_record : Ctx) (cand cur : α)
    (hc : computeCandidate st.value_template st.coerce st.config last_record = .ok cand)
    (hcur : st.value = some cur) (heq : cand = cur)
    (hprior : ∀ p, priorFieldValue st.field_name stream_state = some p → p ≤ cur) :
    (st.update_state stream_slice stream_state last_response last_record).1 = .ok () ∧
    (st.update_state stream_slice stream_state last_response last_record).2.get_state
      = st.get_state :=
  update_state_noop st stream_slice stream_state last_response last_record cand cur
    hc hcur (le_of_eq heq) hprior

/-- Witness for C6 (amended): updating the reachable tracker holding 10 with
the equal candidate 10 changes nothing. -/
theorem dictState_equal_update_idempotent_witness :
    (intState10.update_state none none [] [("updated_at", RawVal.vint 10)]).1 = .ok () ∧
    (intState10.update_state none none [] [("updated_at", RawVal.vint 10)]).2.get_state
      = intState10.get_state :=
  dictState_equal_update_idempotent intState10 none none [] [("updated_at", RawVal.vint 10)]
    10 10 rfl rfl rfl (fun p h => nomatch h)

/-- Claim C7: if template evaluation fails the update returns the evaluation
error and the tracker state is unchanged; if coercion of the candidate fails
the update returns the coercion error and the tracker state is unchanged. -/
theorem dictState_update_error_atomic [LinearOrder α] :
    (∀ (st : DictState α) (stream_slice : Option Ctx)
        (stream_state : Option (List (String × α))) (last_response last_record : Ctx)
        (e : String),
        evalOrError st.value_template ⟨st.config, last_record, []⟩ = .error e →
        st.update_state stream_slice stream_state last_response last_record
          = (.error (.templateEvaluationError e), st)) ∧
    (∀ (st : DictState α) (stream_slice : Option Ctx)
        (stream_state : Option (List (String × α))) (last_response last_record : Ctx)
        (raw : RawVal) (e : String),
        evalOrError st.value_template ⟨st.config, last_record, []⟩ = .ok raw →
        st.coerce raw = .error e →
        st.update_state stream_slice stream_state last_response last_record
          = (.error (.typeCoercionError e), st)) := by
  constructor
  · intro st stream_slice stream_state last_response last_record e he
    apply update_state_err
    simp only [computeCandidate, he]
  · intro st stream_slice stream_state last_response last_record raw e he hco
    apply update_state_err
    simp only [computeCandidate, he, hco]

/-- Witness for C7: a record without the cursor key makes the update return
the template-evaluation error with the state untouched, and a non-numeric
cursor value under the integer type returns the coercion error with the
state untouched. -/
theorem dictState_update_error_atomic_witness :
    intState10.update_state none none [] [("id", RawVal.vstr "1234")]
      = (.error (.templateEvaluationError "missing key in template context"), intState10) ∧
    intState10.update_state none none [] [("updated_at", RawVal.vstr "abc")]
      = (.error (.typeCoercionError "cannot cast to int: abc"), intState10) :=
  ⟨dictState_update_error_atomic.1 intState10 none none [] [("id", RawVal.vstr "1234")]
      "missing key in template context" rfl,
   dictState_update_error_atomic.2 intState10 none none [] [("updated_at", RawVal.vstr "abc")]
      (RawVal.vstr "abc") "cannot cast to int: abc" rfl rfl⟩

/-- Claim C10: the result of `next_page_token` does not depend on the
`last_records` argument. -/
theorem next_page_token_ignores_last_records
    (s : CursorPaginationStrategy) (response : HttpResponse) (l₁ l₂ : List Ctx) :
    s.next_page_token response l₁ = s.next_page_token response l₂ := rfl

end Airbyte
